import Mathlib

/-!
Verification of the MCP DALL-E server (src/mcp-dalle-server/server.py).

The single tool `generate_image` is embedded as a pure Lean function.
Effects are made explicit:

* the remote image-generation client (`client.images.generate`) is an
  environment function `Params → Except String Reply` — `Except.error msg`
  models the call raising an exception whose `str` is `msg`;
* the session history (`ctx.request_context.lifespan_context.generated_images`)
  is passed in and returned;
* the filesystem steps of local persistence are driven by boolean success
  flags in `FsEnv`, and the files actually written are reported in the result;
* raising `ValueError` from the validation block (which sits outside the
  `try`) is the `Except.error` of the handler's `result` field.

Machine integers do not overflow here (Python ints are unbounded), so `Int`
is used directly.
-/

/-- The `size` parameter: a closed enumeration at the protocol boundary. -/
inductive Size
  | s1024x1024
  | s1792x1024
  | s1024x1792
deriving DecidableEq, Repr

/-- The `quality` parameter. -/
inductive Quality
  | standard
  | hd
deriving DecidableEq, Repr

/-- The `style` parameter (when present). -/
inductive Style
  | natural
  | vivid
deriving DecidableEq, Repr

def Size.toStr : Size → String
  | .s1024x1024 => "1024x1024"
  | .s1792x1024 => "1792x1024"
  | .s1024x1792 => "1024x1792"

def Quality.toStr : Quality → String
  | .standard => "standard"
  | .hd => "hd"

def Style.toStr : Style → String
  | .natural => "natural"
  | .vivid => "vivid"

/-- The outbound request payload assembled at server.py lines 113-123.
`style = none` models the `style` key being absent from the payload. -/
structure Params where
  model : String
  prompt : String
  n : Int
  size : Size
  quality : Quality
  style : Option Style
deriving DecidableEq, Repr

/-- One element of the remote reply's `data` list.  Either field may be
missing from the JSON object. -/
structure ImageItem where
  url : Option String
  revised_prompt : Option String
deriving DecidableEq, Repr

/-- The remote client's reply, as the dict parsed from `model_dump_json`
(server.py line 130).  `none` models an absent key. -/
structure Reply where
  created : Option Int
  data : Option (List ImageItem)
deriving DecidableEq, Repr

/-- server.py lines 107-123: prompt-revision suppression and payload
assembly.  `if style:` adds the key exactly when `style` is not `None`
(both enumeration values are truthy strings). -/
def buildParams (prompt : String) (size : Size) (quality : Quality)
    (n : Int) (style : Option Style) (model : String)
    (revise_prompt : Bool) : Params :=
  let modified_prompt :=
    if revise_prompt then prompt else prompt ++ " do not modify my prompt"
  { model := model
    prompt := modified_prompt
    n := n
    size := size
    quality := quality
    style := style }

/-- server.py line 139:
`response_dict.get("data", [{}])[0].get("revised_prompt", prompt)`.
When the `data` key is absent the default singleton `[{}]` is indexed and
the empty item falls back to the original prompt; when the key is present
with an empty list, `[0]` raises `IndexError`. -/
def getRevised (reply : Reply) (prompt : String) : Except String String :=
  match reply.data with
  | none => .ok prompt
  | some [] => .error "list index out of range"
  | some (item :: _) => .ok (item.revised_prompt.getD prompt)

/-- server.py line 140: `result.data[0].url if result.data else None`.
`None` and the empty list are both falsy. -/
def getUrl (reply : Reply) : Option String :=
  match reply.data with
  | none => none
  | some [] => none
  | some (item :: _) => item.url

/-- Zero-padded two-digit rendering used by strftime field specifiers. -/
def pad2 (n : Nat) : String :=
  if n < 10 then "0" ++ toString n else toString n

/-- Four-digit year rendering for strftime `%Y`. -/
def pad4 (n : Int) : String :=
  let m := n.toNat
  if m < 10 then "000" ++ toString m
  else if m < 100 then "00" ++ toString m
  else if m < 1000 then "0" ++ toString m
  else toString m

/-- Proleptic-Gregorian civil date from a count of days since 1970-01-01
(Hinnant's civil-from-days algorithm, the standard conversion behind
`datetime`). Returns (year, month, day). -/
def civilFromDays (days : Int) : Int × Nat × Nat :=
  let z := days + 719468
  let era := Int.fdiv z 146097
  let doe := (z - era * 146097).toNat
  let yoe := (doe - doe / 1460 + doe / 36524 - doe / 146096) / 365
  let y := (yoe : Int) + era * 400
  let doy := doe - (365 * yoe + yoe / 4 - yoe / 100)
  let mp := (5 * doy + 2) / 153
  let d := doy - (153 * mp + 2) / 5 + 1
  let m := if mp < 10 then mp + 3 else mp - 9
  (if m ≤ 2 then y + 1 else y, m, d)

/-- server.py line 134:
`datetime.datetime.fromtimestamp(timestamp).strftime("%Y%m%d_%H%M%S")`.
`fromtimestamp` converts to the server's local time, modelled by the
effective UTC offset `tz` (in seconds) of the environment. -/
def formatTimestamp (tz : Int) (ts : Int) : String :=
  let loc := ts + tz
  let days := Int.fdiv loc 86400
  let secs := (loc - days * 86400).toNat
  let ymd := civilFromDays days
  pad4 ymd.1 ++ pad2 ymd.2.1 ++ pad2 ymd.2.2 ++ "_" ++
    pad2 (secs / 3600) ++ pad2 (secs % 3600 / 60) ++ pad2 (secs % 60)

/-- A JSON value, enough to model the metadata sidecar written by
`json.dump` (server.py lines 170-184). -/
inductive Json
  | str (s : String)
  | num (n : Int)
  | null
  | obj (fields : List (String × Json))

/-- First-match field lookup in a JSON object. -/
def Json.getField (j : Json) (key : String) : Option Json :=
  match j with
  | .obj fields => (fields.find? (fun kv => kv.1 = key)).map (·.2)
  | _ => none

/-- The metadata dict assembled at server.py lines 171-180. -/
structure Metadata where
  prompt : String
  revised_prompt : String
  model : String
  size : Size
  quality : Quality
  style : Option Style
  timestamp : Int
  image_path : String
deriving DecidableEq, Repr

/-- The JSON object `json.dump` writes for a metadata dict: the keys in
source order, `style = None` serialized as JSON null. -/
def metadataToJson (m : Metadata) : Json :=
  .obj [("prompt", .str m.prompt),
        ("revised_prompt", .str m.revised_prompt),
        ("model", .str m.model),
        ("size", .str m.size.toStr),
        ("quality", .str m.quality.toStr),
        ("style", match m.style with
                  | none => .null
                  | some s => .str s.toStr),
        ("timestamp", .num m.timestamp),
        ("image_path", .str m.image_path)]

def Size.ofStr : String → Option Size
  | "1024x1024" => some .s1024x1024
  | "1792x1024" => some .s1792x1024
  | "1024x1792" => some .s1024x1792
  | _ => none

def Quality.ofStr : String → Option Quality
  | "standard" => some .standard
  | "hd" => some .hd
  | _ => none

def Style.ofStr : String → Option Style
  | "natural" => some .natural
  | "vivid" => some .vivid
  | _ => none

def decodeStr : Option Json → Option String
  | some (.str s) => some s
  | _ => none

def decodeInt : Option Json → Option Int
  | some (.num n) => some n
  | _ => none

def decodeStyleField : Option Json → Option (Option Style)
  | some .null => some none
  | some (.str s) => (Style.ofStr s).map some
  | _ => none

/-- Parse a metadata sidecar back from its JSON rendering. -/
def decodeMetadata (j : Json) : Option Metadata := do
  let prompt ← decodeStr (j.getField "prompt")
  let revised ← decodeStr (j.getField "revised_prompt")
  let model ← decodeStr (j.getField "model")
  let size ← (decodeStr (j.getField "size")).bind Size.ofStr
  let quality ← (decodeStr (j.getField "quality")).bind Quality.ofStr
  let style ← decodeStyleField (j.getField "style")
  let ts ← decodeInt (j.getField "timestamp")
  let ipath ← decodeStr (j.getField "image_path")
  pure { prompt := prompt, revised_prompt := revised, model := model,
         size := size, quality := quality, style := style,
         timestamp := ts, image_path := ipath }

/-- The dict returned on success (server.py lines 137-146, possibly extended
at lines 187-188).  `success` is `True`; the local path fields are present
only when persistence completed. -/
structure SuccessRecord where
  revised_prompt : String
  url : Option String
  model : String
  size : Size
  quality : Quality
  style : Option Style
  timestamp : Int
  local_image_path : Option String
  local_metadata_path : Option String
deriving DecidableEq, Repr

/-- The outcome dict of one call: either the `success=True` record or the
`{"success": False, "error": str(e)}` dict of lines 203-206. -/
inductive GenerationRecord
  | ok (r : SuccessRecord)
  | err (msg : String)
deriving DecidableEq, Repr

/-- Filesystem behaviour of the persistence steps (server.py lines 150-191):
a flag per fallible step, plus the directory holding `server.py` (used to
build `images_dir` at line 152). -/
structure FsEnv where
  baseDir : String
  mkdirBaseOk : Bool
  mkdirFolderOk : Bool
  downloadOk : Bool
  writeImageOk : Bool
  writeMetaOk : Bool
deriving DecidableEq, Repr

/-- The call environment: the remote client's behaviour (an `Except.error`
models the call raising), the server's local-time UTC offset in seconds
(consumed by `datetime.fromtimestamp`), and the filesystem behaviour. -/
structure Env where
  remote : Params → Except String Reply
  tz : Int
  fs : FsEnv

/-- Outcome of the local persistence block (server.py lines 149-195):
which files were written, and the pair of paths added to the response
when every step succeeded. -/
structure PersistOut where
  writtenImage : Option String
  writtenMeta : Option (String × Json)
  paths : Option (String × String)

/-- server.py lines 150-195: create `images/`, create the timestamped
folder, download, write the image, write the metadata sidecar.  Any step's
exception aborts the rest of the block and is swallowed; the local path
fields are added only after the metadata write. -/
def persistStep (fs : FsEnv) (tsStr : String) (prompt revised model : String)
    (size : Size) (quality : Quality) (style : Option Style) (ts : Int) :
    PersistOut :=
  if fs.mkdirBaseOk = false then ⟨none, none, none⟩
  else if fs.mkdirFolderOk = false then ⟨none, none, none⟩
  else if fs.downloadOk = false then ⟨none, none, none⟩
  else
    let image_folder := fs.baseDir ++ "/images/" ++ tsStr
    let image_path := image_folder ++ "/generated_image.png"
    if fs.writeImageOk = false then ⟨none, none, none⟩
    else
      let metadata : Metadata :=
        { prompt := prompt, revised_prompt := revised, model := model,
          size := size, quality := quality, style := style,
          timestamp := ts, image_path := image_path }
      let metadata_path := image_folder ++ "/metadata.json"
      if fs.writeMetaOk = false then ⟨some image_path, none, none⟩
      else ⟨some image_path, some (metadata_path, metadataToJson metadata),
            some (image_path, metadata_path)⟩

/-- What the `try` block (server.py lines 125-206) produces: the record
built (a `success=True` dict, or the `success=False` dict the `except`
arm returns), the history after the block, and the files written. -/
structure TryOut where
  record : GenerationRecord
  history : List GenerationRecord
  writtenImage : Option String
  writtenMeta : Option (String × Json)

/-- server.py lines 125-206.  Everything that raises inside the `try` —
the remote call itself, `fromtimestamp(None)` when the reply has no
`created`, indexing an empty `data` list — lands in the `except` arm,
which builds `{"success": False, "error": str(e)}` and returns it without
touching the history.  On the success path the response is appended to
`generated_images` (line 198) and returned. -/
def tryBlock (env : Env) (hist : List GenerationRecord) (prompt : String)
    (size : Size) (quality : Quality) (style : Option Style)
    (model : String) (params : Params) : TryOut :=
  match env.remote params with
  | .error e => ⟨.err e, hist, none, none⟩
  | .ok reply =>
    match reply.created with
    | none =>
      ⟨.err "\x27NoneType\x27 object cannot be interpreted as an integer",
       hist, none, none⟩
    | some ts =>
      let timestamp_str := formatTimestamp env.tz ts
      match getRevised reply prompt with
      | .error e => ⟨.err e, hist, none, none⟩
      | .ok revised =>
        let url := getUrl reply
        let base : SuccessRecord :=
          { revised_prompt := revised, url := url, model := model,
            size := size, quality := quality, style := style,
            timestamp := ts, local_image_path := none,
            local_metadata_path := none }
        if url.getD "" ≠ "" then
          let pout := persistStep env.fs timestamp_str prompt revised model
            size quality style ts
          let record : SuccessRecord :=
            match pout.paths with
            | some (ip, mp) =>
              { base with local_image_path := some ip,
                          local_metadata_path := some mp }
            | none => base
          ⟨.ok record, hist ++ [.ok record],
           pout.writtenImage, pout.writtenMeta⟩
        else
          ⟨.ok base, hist ++ [.ok base], none, none⟩

/-- What one invocation of the tool produces: the value returned to the
caller (`Except.error` = the `ValueError` raised by validation), the
session history after the call, the files written locally, and the
payload handed to the remote client (`none` = the remote call was never
issued). -/
structure HandlerResult where
  result : Except String GenerationRecord
  history : List GenerationRecord
  writtenImage : Option String
  writtenMeta : Option (String × Json)
  sent : Option Params

/-- server.py lines 72-206, the `generate_image` tool.  Validation raises
(`Except.error`) before any remote call; the `try` block then always
returns a dict (never raises), so its outcome appears under `.ok`. -/
def generate_image (env : Env) (hist : List GenerationRecord)
    (prompt : String) (size : Size) (quality : Quality) (n : Int)
    (style : Option Style) (model : String) (revise_prompt : Bool) :
    HandlerResult :=
  if n < 1 ∨ n > 10 then
    { result := .error "Number of images (n) must be between 1 and 10",
      history := hist, writtenImage := none, writtenMeta := none,
      sent := none }
  else if model ≠ "dalle3" ∧ model ≠ "dalle2" then
    { result := .error "Model must be either \x27dalle3\x27 or \x27dalle2\x27",
      history := hist, writtenImage := none, writtenMeta := none,
      sent := none }
  else
    let params := buildParams prompt size quality n style model revise_prompt
    let t := tryBlock env hist prompt size quality style model params
    { result := .ok t.record, history := t.history,
      writtenImage := t.writtenImage, writtenMeta := t.writtenMeta,
      sent := some params }

/-- The spec's end-to-end stub image item (§8). -/
def stubItem : ImageItem :=
  { url := some "http://x/img.png",
    revised_prompt := some "a red fox in a field" }

/-- The spec's end-to-end stub reply: created=1700000000, one image. -/
def stubReply : Reply :=
  { created := some 1700000000, data := some [stubItem] }

/-- A filesystem on which every persistence step succeeds. -/
def allOkFs : FsEnv :=
  { baseDir := "/srv", mkdirBaseOk := true, mkdirFolderOk := true,
    downloadOk := true, writeImageOk := true, writeMetaOk := true }

/-- A read-only filesystem: the image write fails. -/
def noWriteFs : FsEnv := { allOkFs with writeImageOk := false }

/-- UTC server whose remote client answers every request with the stub
reply and whose filesystem is writable. -/
def stubEnv : Env :=
  { remote := fun _ => .ok stubReply, tz := 0, fs := allOkFs }

/-- A server whose remote call always raises an exception rendering to
`msg`. -/
def errorEnv (msg : String) : Env :=
  { remote := fun _ => .error msg, tz := 0, fs := allOkFs }

/-- A server whose remote reply carries an empty `data` list. -/
def emptyDataEnv : Env :=
  { remote := fun _ => .ok { created := some 1700000000, data := some [] },
    tz := 0, fs := allOkFs }

/-- The stub server on a read-only filesystem. -/
def roFsEnv : Env := { stubEnv with fs := noWriteFs }

/-- The stub server in a local timezone five hours west of UTC. -/
def easternEnv : Env := { stubEnv with tz := -18000 }

/-- If any persistence step fails, no local paths are produced. -/
theorem persistStep_paths_none (fs : FsEnv) (tsStr prompt revised model : String)
    (size : Size) (quality : Quality) (style : Option Style) (ts : Int)
    (hfail : fs.mkdirBaseOk = false ∨ fs.mkdirFolderOk = false ∨
             fs.downloadOk = false ∨ fs.writeImageOk = false ∨
             fs.writeMetaOk = false) :
    (persistStep fs tsStr prompt revised model size quality style ts).paths
      = none := by
  obtain ⟨b, k1, k2, k3, k4, k5⟩ := fs
  cases k1 <;> cases k2 <;> cases k3 <;> cases k4 <;> cases k5 <;>
    simp_all [persistStep]

/-- When every persistence step succeeds, the block writes the image and
the metadata sidecar into the timestamped folder and reports both paths. -/
theorem persistStep_all_ok (fs : FsEnv) (tsStr prompt revised model : String)
    (size : Size) (quality : Quality) (style : Option Style) (ts : Int)
    (h1 : fs.mkdirBaseOk = true) (h2 : fs.mkdirFolderOk = true)
    (h3 : fs.downloadOk = true) (h4 : fs.writeImageOk = true)
    (h5 : fs.writeMetaOk = true) :
    persistStep fs tsStr prompt revised model size quality style ts
      = ⟨some (fs.baseDir ++ "/images/" ++ tsStr ++ "/generated_image.png"),
         some (fs.baseDir ++ "/images/" ++ tsStr ++ "/metadata.json",
               metadataToJson
                 { prompt := prompt, revised_prompt := revised,
                   model := model, size := size, quality := quality,
                   style := style, timestamp := ts,
                   image_path := fs.baseDir ++ "/images/" ++ tsStr
                     ++ "/generated_image.png" }),
         some (fs.baseDir ++ "/images/" ++ tsStr ++ "/generated_image.png",
               fs.baseDir ++ "/images/" ++ tsStr ++ "/metadata.json")⟩ := by
  unfold persistStep
  simp [h1, h2, h3, h4, h5]

/-- A metadata sidecar parses back to exactly the value it was written
from. -/
theorem decodeMetadata_metadataToJson (m : Metadata) :
    decodeMetadata (metadataToJson m) = some m := by
  obtain ⟨p, r, mo, sz, q, st, ts, ip⟩ := m
  cases sz <;> cases q <;> rcases st with _ | (_ | _) <;> rfl

/-- C1: whenever `n` lies outside [1,10] or `model` is not one of
dalle3/dalle2, `generate_image` raises a `ValueError` to the caller
(an explicit fault, not a `success=False` envelope), sends nothing to the
remote client, leaves the session history unchanged, and its outcome is
entirely independent of the environment (so no remote or filesystem
effect can have occurred). -/
theorem generate_image_invalid_argument (env env2 : Env)
    (hist : List GenerationRecord) (prompt : String) (size : Size)
    (quality : Quality) (n : Int) (style : Option Style) (model : String)
    (revise_prompt : Bool)
    (h : (n < 1 ∨ n > 10) ∨ ¬(model = "dalle3" ∨ model = "dalle2")) :
    (∃ msg, (generate_image env hist prompt size quality n style model
        revise_prompt).result = Except.error msg) ∧
    (generate_image env hist prompt size quality n style model
        revise_prompt).sent = none ∧
    (generate_image env hist prompt size quality n style model
        revise_prompt).history = hist ∧
    generate_image env hist prompt size quality n style model revise_prompt
      = generate_image env2 hist prompt size quality n style model
          revise_prompt := by
  by_cases h1 : n < 1 ∨ n > 10
  · unfold generate_image
    simp only [if_pos h1]
    exact ⟨⟨_, rfl⟩, by trivial, by trivial, by trivial⟩
  · have h2 : model ≠ "dalle3" ∧ model ≠ "dalle2" := by
      rcases h with h | h
      · exact absurd h h1
      · push_neg at h
        exact h
    unfold generate_image
    simp only [if_neg h1, if_pos h2]
    exact ⟨⟨_, rfl⟩, by trivial, by trivial, by trivial⟩

/-- C1 witness: `n = 0` against two different environments. -/
theorem generate_image_invalid_argument_witness :
    (∃ msg, (generate_image stubEnv [] "p" Size.s1024x1024 Quality.standard
        0 none "dalle3" true).result = Except.error msg) ∧
    (generate_image stubEnv [] "p" Size.s1024x1024 Quality.standard 0 none
        "dalle3" true).sent = none ∧
    (generate_image stubEnv [] "p" Size.s1024x1024 Quality.standard 0 none
        "dalle3" true).history = [] ∧
    generate_image stubEnv [] "p" Size.s1024x1024 Quality.standard 0 none
        "dalle3" true
      = generate_image (errorEnv "boom") [] "p" Size.s1024x1024
          Quality.standard 0 none "dalle3" true :=
  generate_image_invalid_argument stubEnv (errorEnv "boom") [] "p"
    Size.s1024x1024 Quality.standard 0 none "dalle3" true
    (Or.inl (Or.inl (by decide)))

/-- The returned record carries a non-empty error description. -/
def hasNonemptyError : GenerationRecord → Prop
  | .err m => m ≠ ""
  | .ok _ => False

/-- C2 counterexample: a remote failure whose exception renders to the
empty string is returned as `success=False` with `error = ""` — the error
field is not non-empty, refuting the claim as stated. -/
theorem generate_image_remote_error_empty :
    (generate_image (errorEnv "") [] "p" Size.s1024x1024 Quality.standard
        1 none "dalle3" true).result
      = Except.ok (GenerationRecord.err "") ∧
    ¬ hasNonemptyError (GenerationRecord.err "") :=
  ⟨rfl, fun h => h rfl⟩

/-- C2 (amended): when the remote call raises an exception rendering to
`e`, the handler returns normally (no exception escapes) with the record
`{success: False, error: e}` — the error field carries exactly the
failure's textual description, which is non-empty whenever the
description is. -/
theorem generate_image_remote_error (env : Env)
    (hist : List GenerationRecord) (prompt : String) (size : Size)
    (quality : Quality) (n : Int) (style : Option Style) (model : String)
    (revise_prompt : Bool) (e : String)
    (hn : ¬(n < 1 ∨ n > 10)) (hm : model = "dalle3" ∨ model = "dalle2")
    (hr : env.remote (buildParams prompt size quality n style model
            revise_prompt) = .error e) :
    (generate_image env hist prompt size quality n style model
        revise_prompt).result = Except.ok (GenerationRecord.err e) := by
  have h2 : ¬(model ≠ "dalle3" ∧ model ≠ "dalle2") := by tauto
  unfold generate_image
  simp only [if_neg hn, if_neg h2]
  unfold tryBlock
  rw [hr]

/-- C2 witness: a remote failure described as "boom". -/
theorem generate_image_remote_error_witness :
    (generate_image (errorEnv "boom") [] "p" Size.s1024x1024
        Quality.standard 1 none "dalle3" true).result
      = Except.ok (GenerationRecord.err "boom") :=
  generate_image_remote_error (errorEnv "boom") [] "p" Size.s1024x1024
    Quality.standard 1 none "dalle3" true "boom" (by decide) (Or.inl rfl)
    rfl

/-- C4: the spec says a reply with an empty image list yields
`success=true` with `url` absent, but the code indexes
`response_dict.get("data", [{}])[0]` — the default applies only when the
key is absent, so a present-but-empty list raises `IndexError`, which the
outer `except` converts into a `success=False` record; the revised-prompt
fallback is never reached.  Evaluating the handler at such a reply
exhibits the divergence. -/
theorem generate_image_empty_data_bug :
    (generate_image emptyDataEnv [] "a red fox" Size.s1024x1024
        Quality.standard 1 none "dalle3" true).result
      = Except.ok (GenerationRecord.err "list index out of range") ∧
    (generate_image emptyDataEnv [] "a red fox" Size.s1024x1024
        Quality.standard 1 none "dalle3" true).history = [] :=
  ⟨rfl, rfl⟩

/-- C5: with `revise_prompt=false` the prompt in the outbound payload is
the caller's prompt with the literal suffix appended exactly once, and
whenever `generate_image` issues the remote call at all, the payload it
sends is exactly that one. -/
theorem generate_image_prompt_suffix (env : Env)
    (hist : List GenerationRecord) (prompt : String) (size : Size)
    (quality : Quality) (n : Int) (style : Option Style) (model : String) :
    (buildParams prompt size quality n style model false).prompt
      = prompt ++ " do not modify my prompt" ∧
    ((generate_image env hist prompt size quality n style model
        false).sent = none ∨
     (generate_image env hist prompt size quality n style model false).sent
       = some (buildParams prompt size quality n style model false)) := by
  refine ⟨rfl, ?_⟩
  unfold generate_image
  by_cases h1 : n < 1 ∨ n > 10
  · simp [h1]
  · by_cases h2 : model ≠ "dalle3" ∧ model ≠ "dalle2" <;> simp [h1, h2]

/-- C6: the outbound payload has no `style` entry when the caller leaves
`style` unspecified, and carries the caller's value verbatim when it is
given. -/
theorem generate_image_style_passthrough (prompt : String) (size : Size)
    (quality : Quality) (n : Int) (model : String) (revise_prompt : Bool) :
    (buildParams prompt size quality n none model revise_prompt).style
      = none ∧
    ∀ s : Style,
      (buildParams prompt size quality n (some s) model
          revise_prompt).style = some s :=
  ⟨rfl, fun _ => rfl⟩

/-- C10: with `revise_prompt=true` (the default) the prompt in the
outbound payload is exactly the caller's prompt, and whenever
`generate_image` issues the remote call at all, the payload it sends is
exactly that one. -/
theorem generate_image_prompt_unmodified (env : Env)
    (hist : List GenerationRecord) (prompt : String) (size : Size)
    (quality : Quality) (n : Int) (style : Option Style) (model : String) :
    (buildParams prompt size quality n style model true).prompt = prompt ∧
    ((generate_image env hist prompt size quality n style model
        true).sent = none ∨
     (generate_image env hist prompt size quality n style model true).sent
       = some (buildParams prompt size quality n style model true)) := by
  refine ⟨rfl, ?_⟩
  unfold generate_image
  by_cases h1 : n < 1 ∨ n > 10
  · simp [h1]
  · by_cases h2 : model ≠ "dalle3" ∧ model ≠ "dalle2" <;> simp [h1, h2]

/-- C3: when the remote call succeeds with a URL but any persistence step
fails, the handler still returns `success=true` — the very record it
would have built, just without the local-path fields — the record is
appended to the history, and no exception escapes. -/
theorem generate_image_persistence_swallowed (env : Env)
    (hist : List GenerationRecord) (prompt : String) (size : Size)
    (quality : Quality) (n : Int) (style : Option Style) (model : String)
    (revise_prompt : Bool) (reply : Reply) (ts : Int) (revised u : String)
    (hn : ¬(n < 1 ∨ n > 10)) (hm : model = "dalle3" ∨ model = "dalle2")
    (hr : env.remote (buildParams prompt size quality n style model
            revise_prompt) = .ok reply)
    (hc : reply.created = some ts)
    (hrev : getRevised reply prompt = .ok revised)
    (hu : getUrl reply = some u) (hne : u ≠ "")
    (hfail : env.fs.mkdirBaseOk = false ∨ env.fs.mkdirFolderOk = false ∨
             env.fs.downloadOk = false ∨ env.fs.writeImageOk = false ∨
             env.fs.writeMetaOk = false) :
    (generate_image env hist prompt size quality n style model
        revise_prompt).result
      = Except.ok (GenerationRecord.ok
          { revised_prompt := revised, url := some u, model := model,
            size := size, quality := quality, style := style,
            timestamp := ts, local_image_path := none,
            local_metadata_path := none }) ∧
    (generate_image env hist prompt size quality n style model
        revise_prompt).history
      = hist ++ [GenerationRecord.ok
          { revised_prompt := revised, url := some u, model := model,
            size := size, quality := quality, style := style,
            timestamp := ts, local_image_path := none,
            local_metadata_path := none }] := by
  have h2 : ¬(model ≠ "dalle3" ∧ model ≠ "dalle2") := by tauto
  have hp := persistStep_paths_none env.fs (formatTimestamp env.tz ts)
    prompt revised model size quality style ts hfail
  unfold generate_image tryBlock
  simp only [if_neg hn, if_neg h2, hr, hc, hrev, hu]
  simp [hne, hp]

/-- C3 witness: the stub generation on a read-only filesystem. -/
theorem generate_image_persistence_swallowed_witness :
    (generate_image roFsEnv [] "a red fox" Size.s1024x1024
        Quality.standard 1 none "dalle3" true).result
      = Except.ok (GenerationRecord.ok
          { revised_prompt := "a red fox in a field",
            url := some "http://x/img.png", model := "dalle3",
            size := Size.s1024x1024, quality := Quality.standard,
            style := none, timestamp := 1700000000,
            local_image_path := none, local_metadata_path := none }) ∧
    (generate_image roFsEnv [] "a red fox" Size.s1024x1024
        Quality.standard 1 none "dalle3" true).history
      = [] ++ [GenerationRecord.ok
          { revised_prompt := "a red fox in a field",
            url := some "http://x/img.png", model := "dalle3",
            size := Size.s1024x1024, quality := Quality.standard,
            style := none, timestamp := 1700000000,
            local_image_path := none, local_metadata_path := none }] :=
  generate_image_persistence_swallowed roFsEnv [] "a red fox"
    Size.s1024x1024 Quality.standard 1 none "dalle3" true stubReply
    1700000000 "a red fox in a field" "http://x/img.png" (by decide)
    (Or.inl rfl) rfl rfl rfl rfl (by decide)
    (Or.inr (Or.inr (Or.inr (Or.inl rfl))))

/-- C7: when the remote call succeeds with a URL and every persistence
step succeeds, the returned record carries both local paths, the metadata
sidecar written at `local_metadata_path` is the JSON rendering of the
metadata value, and parsing that JSON reproduces exactly the original
prompt, revised prompt, model, size, quality, style and timestamp of the
returned record (write-then-parse round trip). -/
theorem generate_image_metadata_roundtrip (env : Env)
    (hist : List GenerationRecord) (prompt : String) (size : Size)
    (quality : Quality) (n : Int) (style : Option Style) (model : String)
    (revise_prompt : Bool) (reply : Reply) (ts : Int) (revised u : String)
    (hn : ¬(n < 1 ∨ n > 10)) (hm : model = "dalle3" ∨ model = "dalle2")
    (hr : env.remote (buildParams prompt size quality n style model
            revise_prompt) = .ok reply)
    (hc : reply.created = some ts)
    (hrev : getRevised reply prompt = .ok revised)
    (hu : getUrl reply = some u) (hne : u ≠ "")
    (h1 : env.fs.mkdirBaseOk = true) (h2 : env.fs.mkdirFolderOk = true)
    (h3 : env.fs.downloadOk = true) (h4 : env.fs.writeImageOk = true)
    (h5 : env.fs.writeMetaOk = true) :
    (generate_image env hist prompt size quality n style model
        revise_prompt).result
      = Except.ok (GenerationRecord.ok
          { revised_prompt := revised, url := some u, model := model,
            size := size, quality := quality, style := style,
            timestamp := ts,
            local_image_path := some (env.fs.baseDir ++ "/images/"
              ++ formatTimestamp env.tz ts ++ "/generated_image.png"),
            local_metadata_path := some (env.fs.baseDir ++ "/images/"
              ++ formatTimestamp env.tz ts ++ "/metadata.json") }) ∧
    (generate_image env hist prompt size quality n style model
        revise_prompt).writtenMeta
      = some (env.fs.baseDir ++ "/images/" ++ formatTimestamp env.tz ts
              ++ "/metadata.json",
              metadataToJson
                { prompt := prompt, revised_prompt := revised,
                  model := model, size := size, quality := quality,
                  style := style, timestamp := ts,
                  image_path := env.fs.baseDir ++ "/images/"
                    ++ formatTimestamp env.tz ts
                    ++ "/generated_image.png" }) ∧
    decodeMetadata (metadataToJson
        { prompt := prompt, revised_prompt := revised, model := model,
          size := size, quality := quality, style := style,
          timestamp := ts,
          image_path := env.fs.baseDir ++ "/images/"
            ++ formatTimestamp env.tz ts ++ "/generated_image.png" })
      = some { prompt := prompt, revised_prompt := revised,
               model := model, size := size, quality := quality,
               style := style, timestamp := ts,
               image_path := env.fs.baseDir ++ "/images/"
                 ++ formatTimestamp env.tz ts
                 ++ "/generated_image.png" } := by
  have hmn : ¬(model ≠ "dalle3" ∧ model ≠ "dalle2") := by tauto
  have hp := persistStep_all_ok env.fs (formatTimestamp env.tz ts)
    prompt revised model size quality style ts h1 h2 h3 h4 h5
  refine ⟨?_, ?_, decodeMetadata_metadataToJson _⟩ <;>
  · unfold generate_image tryBlock
    simp only [if_neg hn, if_neg hmn, hr, hc, hrev, hu]
    simp [hne, hp]

/-- C7 witness: the stub generation on a writable filesystem. -/
theorem generate_image_metadata_roundtrip_witness :
    (generate_image stubEnv [] "a red fox" Size.s1024x1024
        Quality.standard 1 none "dalle3" true).result
      = Except.ok (GenerationRecord.ok
          { revised_prompt := "a red fox in a field",
            url := some "http://x/img.png", model := "dalle3",
            size := Size.s1024x1024, quality := Quality.standard,
            style := none, timestamp := 1700000000,
            local_image_path := some (stubEnv.fs.baseDir ++ "/images/"
              ++ formatTimestamp stubEnv.tz 1700000000
              ++ "/generated_image.png"),
            local_metadata_path := some (stubEnv.fs.baseDir ++ "/images/"
              ++ formatTimestamp stubEnv.tz 1700000000
              ++ "/metadata.json") }) ∧
    (generate_image stubEnv [] "a red fox" Size.s1024x1024
        Quality.standard 1 none "dalle3" true).writtenMeta
      = some (stubEnv.fs.baseDir ++ "/images/"
              ++ formatTimestamp stubEnv.tz 1700000000 ++ "/metadata.json",
              metadataToJson
                { prompt := "a red fox",
                  revised_prompt := "a red fox in a field",
                  model := "dalle3", size := Size.s1024x1024,
                  quality := Quality.standard, style := none,
                  timestamp := 1700000000,
                  image_path := stubEnv.fs.baseDir ++ "/images/"
                    ++ formatTimestamp stubEnv.tz 1700000000
                    ++ "/generated_image.png" }) ∧
    decodeMetadata (metadataToJson
        { prompt := "a red fox", revised_prompt := "a red fox in a field",
          model := "dalle3", size := Size.s1024x1024,
          quality := Quality.standard, style := none,
          timestamp := 1700000000,
          image_path := stubEnv.fs.baseDir ++ "/images/"
            ++ formatTimestamp stubEnv.tz 1700000000
            ++ "/generated_image.png" })
      = some { prompt := "a red fox",
               revised_prompt := "a red fox in a field",
               model := "dalle3", size := Size.s1024x1024,
               quality := Quality.standard, style := none,
               timestamp := 1700000000,
               image_path := stubEnv.fs.baseDir ++ "/images/"
                 ++ formatTimestamp stubEnv.tz 1700000000
                 ++ "/generated_image.png" } :=
  generate_image_metadata_roundtrip stubEnv [] "a red fox"
    Size.s1024x1024 Quality.standard 1 none "dalle3" true stubReply
    1700000000 "a red fox in a field" "http://x/img.png" (by decide)
    (Or.inl rfl) rfl rfl rfl rfl (by decide) rfl rfl rfl rfl rfl

/-- C8 counterexample: `datetime.fromtimestamp` renders local time, so on
a server five hours west of UTC the stub reply with created=1700000000
lands in folder 20231114_171320, not the claimed 20231114_221320. -/
theorem generate_image_folder_tz_counterexample :
    (generate_image easternEnv [] "a red fox" Size.s1024x1024
        Quality.standard 1 none "dalle3" true).writtenImage
      = some "/srv/images/20231114_171320/generated_image.png" ∧
    "20231114_171320" ≠ "20231114_221320" :=
  ⟨rfl, by decide⟩

/-- C8 (amended): the artifact folder is named by the YYYYMMDD_HHMMSS
rendering of the record's epoch-seconds timestamp in the server's local
timezone; when that timezone is UTC, created=1700000000 yields exactly
the folder name 20231114_221320. -/
theorem generate_image_folder_local_time (env : Env)
    (hist : List GenerationRecord) (prompt : String) (size : Size)
    (quality : Quality) (n : Int) (style : Option Style) (model : String)
    (revise_prompt : Bool) (reply : Reply) (ts : Int) (revised u : String)
    (hn : ¬(n < 1 ∨ n > 10)) (hm : model = "dalle3" ∨ model = "dalle2")
    (hr : env.remote (buildParams prompt size quality n style model
            revise_prompt) = .ok reply)
    (hc : reply.created = some ts)
    (hrev : getRevised reply prompt = .ok revised)
    (hu : getUrl reply = some u) (hne : u ≠ "")
    (h1 : env.fs.mkdirBaseOk = true) (h2 : env.fs.mkdirFolderOk = true)
    (h3 : env.fs.downloadOk = true) (h4 : env.fs.writeImageOk = true)
    (h5 : env.fs.writeMetaOk = true) :
    (generate_image env hist prompt size quality n style model
        revise_prompt).writtenImage
      = some (env.fs.baseDir ++ "/images/" ++ formatTimestamp env.tz ts
              ++ "/generated_image.png") ∧
    formatTimestamp 0 1700000000 = "20231114_221320" := by
  have hmn : ¬(model ≠ "dalle3" ∧ model ≠ "dalle2") := by tauto
  have hp := persistStep_all_ok env.fs (formatTimestamp env.tz ts)
    prompt revised model size quality style ts h1 h2 h3 h4 h5
  refine ⟨?_, by decide⟩
  unfold generate_image tryBlock
  simp only [if_neg hn, if_neg hmn, hr, hc, hrev, hu]
  simp [hne, hp]

/-- C8 witness: the stub generation on a UTC server writes into the
folder named 20231114_221320. -/
theorem generate_image_folder_local_time_witness :
    (generate_image stubEnv [] "a red fox" Size.s1024x1024
        Quality.standard 1 none "dalle3" true).writtenImage
      = some (stubEnv.fs.baseDir ++ "/images/"
              ++ formatTimestamp stubEnv.tz 1700000000
              ++ "/generated_image.png") ∧
    formatTimestamp 0 1700000000 = "20231114_221320" :=
  generate_image_folder_local_time stubEnv [] "a red fox"
    Size.s1024x1024 Quality.standard 1 none "dalle3" true stubReply
    1700000000 "a red fox in a field" "http://x/img.png" (by decide)
    (Or.inl rfl) rfl rfl rfl rfl (by decide) rfl rfl rfl rfl rfl

/-- C9 counterexample: a failed remote call produces a `success=False`
record that is returned to the caller, yet the history stays empty —
failure records are never appended, refuting the claim that every record
is. -/
theorem generate_image_failure_not_appended :
    (generate_image (errorEnv "boom") [] "q" Size.s1024x1024
        Quality.standard 1 none "dalle3" true).result
      = Except.ok (GenerationRecord.err "boom") ∧
    (generate_image (errorEnv "boom") [] "q" Size.s1024x1024
        Quality.standard 1 none "dalle3" true).history = [] :=
  ⟨rfl, rfl⟩

/-- The `try` block appends exactly the record it built when that record
is a success, and appends nothing when it is a failure. -/
theorem tryBlock_history (env : Env) (hist : List GenerationRecord)
    (prompt : String) (size : Size) (quality : Quality)
    (style : Option Style) (model : String) (params : Params) :
    (tryBlock env hist prompt size quality style model params).history
      = hist ++
        (match (tryBlock env hist prompt size quality style model
            params).record with
         | .ok r => [GenerationRecord.ok r]
         | .err _ => []) := by
  unfold tryBlock
  rcases h1 : env.remote params with e | reply <;> simp only [h1]
  · simp
  rcases h2 : reply.created with _ | ts <;> simp only [h2]
  · simp
  rcases h3 : getRevised reply prompt with e | revised <;> simp only [h3]
  · simp
  by_cases h4 : (getUrl reply).getD "" = ""
  · simp [h4]
  · simp [h4]

/-- C9 (amended): the handler only ever appends to the history — the
prior history is always a prefix of the new one, so existing entries are
never mutated or deleted; every `success=True` record is appended exactly
once; but `success=False` records and validation faults leave the history
unchanged (failure records are not recorded, contrary to the claim as
stated). -/
theorem generate_image_history_append (env : Env)
    (hist : List GenerationRecord) (prompt : String) (size : Size)
    (quality : Quality) (n : Int) (style : Option Style) (model : String)
    (revise_prompt : Bool) :
    (∃ t, (generate_image env hist prompt size quality n style model
        revise_prompt).history = hist ++ t) ∧
    (∀ r, (generate_image env hist prompt size quality n style model
        revise_prompt).result = Except.ok (GenerationRecord.ok r) →
      (generate_image env hist prompt size quality n style model
        revise_prompt).history = hist ++ [GenerationRecord.ok r]) ∧
    (∀ e, (generate_image env hist prompt size quality n style model
        revise_prompt).result = Except.ok (GenerationRecord.err e) →
      (generate_image env hist prompt size quality n style model
        revise_prompt).history = hist) ∧
    (∀ v, (generate_image env hist prompt size quality n style model
        revise_prompt).result = Except.error v →
      (generate_image env hist prompt size quality n style model
        revise_prompt).history = hist) := by
  unfold generate_image
  by_cases hv1 : n < 1 ∨ n > 10
  · simp only [if_pos hv1]
    exact ⟨⟨[], by simp⟩, fun r h => by simp at h, fun e h => by simp at h,
           fun v h => trivial⟩
  by_cases hv2 : model ≠ "dalle3" ∧ model ≠ "dalle2"
  · simp only [if_neg hv1, if_pos hv2]
    exact ⟨⟨[], by simp⟩, fun r h => by simp at h, fun e h => by simp at h,
           fun v h => trivial⟩
  simp only [if_neg hv1, if_neg hv2]
  have hs := tryBlock_history env hist prompt size quality style model
    (buildParams prompt size quality n style model revise_prompt)
  refine ⟨⟨_, hs⟩, fun r h => ?_, fun e h => ?_, fun v h => ?_⟩
  · have hrec : (tryBlock env hist prompt size quality style model
        (buildParams prompt size quality n style model
          revise_prompt)).record = GenerationRecord.ok r := by injection h
    rw [hs, hrec]
  · have hrec : (tryBlock env hist prompt size quality style model
        (buildParams prompt size quality n style model
          revise_prompt)).record = GenerationRecord.err e := by injection h
    rw [hs, hrec]
    simp
  · simp at h

/-- The record the stub generation builds, local paths included. -/
def stubRecord : SuccessRecord :=
  { revised_prompt := "a red fox in a field",
    url := some "http://x/img.png", model := "dalle3",
    size := Size.s1024x1024, quality := Quality.standard, style := none,
    timestamp := 1700000000,
    local_image_path := some "/srv/images/20231114_221320/generated_image.png",
    local_metadata_path := some "/srv/images/20231114_221320/metadata.json" }

/-- C9 witness: the stub generation appends its success record to the
empty history. -/
theorem generate_image_history_append_witness :
    (generate_image stubEnv [] "a red fox" Size.s1024x1024
        Quality.standard 1 none "dalle3" true).history
      = [] ++ [GenerationRecord.ok stubRecord] :=
  (generate_image_history_append stubEnv [] "a red fox" Size.s1024x1024
    Quality.standard 1 none "dalle3" true).2.1 stubRecord rfl
